/-
Verification of the trio-jsonrpc connection engine and dispatch layer.

This file gives a shallow embedding of `trio_jsonrpc/main.py` (the
`JsonRpcConnection` class, its background receive loop, and the
`jsonrpc_client` / `jsonrpc_server` constructors) and of
`trio_jsonrpc/dispatch.py` (the `Dispatch` class with its handler registry,
`handle_request`, the connection-context scope, and the ambient-context
accessor).  Stateful code is modelled by explicit state passing; the
background receive loop is a step function over the connection state driven
by the events one loop iteration can observe.  The external `sansio_jsonrpc`
wire codec is modelled at the message level, following its documented
contract (each parsed message is either a request or a response; exceptions
carry a code, a message and optional data).
-/
import Mathlib

/-- A JSON value, as produced by the wire codec for `params`, `result` and
`data` fields.  Numbers are modelled as integers, which suffices for every
value the claims mention. -/
inductive JsonValue where
  | null
  | bool (b : Bool)
  | num (n : Int)
  | str (s : String)
  | arr (xs : List JsonValue)
  | obj (kvs : List (String × JsonValue))
  deriving Repr

/-- A JSON-RPC error object and, equally, the payload of a typed
`JsonRpcException`: `sansio_jsonrpc` exceptions carry exactly a `code`, a
`message` and optional `data`, and the concrete exception class is selected
from `code` alone, so the triple determines the typed exception. -/
structure JsonRpcError where
  code : Int
  message : String
  data : Option JsonValue
  deriving Repr

/-- `sansio_jsonrpc.JsonRpcMethodNotFoundError(msg)`: code -32601. -/
def jsonRpcMethodNotFoundError (msg : String) : JsonRpcError :=
  { code := -32601, message := msg, data := none }

/-- `sansio_jsonrpc.JsonRpcInternalError(msg)`: code -32603. -/
def jsonRpcInternalError (msg : String) : JsonRpcError :=
  { code := -32603, message := msg, data := none }

/-- `JsonRpcException.exc_from_error(error)`: reconstructs the typed
exception from a response's error object, preserving code, message and
data (the class is chosen from `code`). -/
def exc_from_error (e : JsonRpcError) : JsonRpcError :=
  { code := e.code, message := e.message, data := e.data }

/-- An inbound `sansio_jsonrpc.JsonRpcRequest`: `id` is absent for
notifications. -/
structure JsonRpcRequest where
  id : Option Nat
  method : String
  params : Option JsonValue
  deriving Repr

/-- The body of a `sansio_jsonrpc.JsonRpcResponse`: exactly one of
`result` and `error` is present. -/
inductive ResponseBody where
  | result (v : JsonValue)
  | error (e : JsonRpcError)
  deriving Repr

/-- A `sansio_jsonrpc.JsonRpcResponse`. -/
structure JsonRpcResponse where
  id : Nat
  body : ResponseBody
  deriving Repr

/-- `JsonRpcResponse.success`: true when the response carries a result. -/
def JsonRpcResponse.success (r : JsonRpcResponse) : Bool :=
  match r.body with
  | .result _ => true
  | .error _ => false

/-- `JsonRpcResponse.result`: the result value of a success response
(meaningful only when `success` holds). -/
def JsonRpcResponse.result (r : JsonRpcResponse) : JsonValue :=
  match r.body with
  | .result v => v
  | .error _ => .null

/-- `JsonRpcResponse.error`: the error object of an error response
(meaningful only when `success` fails). -/
def JsonRpcResponse.error (r : JsonRpcResponse) : JsonRpcError :=
  match r.body with
  | .result _ => jsonRpcInternalError ""
  | .error e => e

/-- A parsed wire message; `sansio_jsonrpc` guarantees each message is
either a request or a response. -/
inductive Message where
  | request (r : JsonRpcRequest)
  | response (r : JsonRpcResponse)
  deriving Repr

/-! ### Association-list primitives

Python `dict`s keyed by integers or strings are modelled as association
lists with unique keys; `lookupA` is subscripting, `setA` is assignment
(replace or append), `eraseA` is `del`. -/

/-- Dictionary lookup on an association list. -/
def lookupA {κ α : Type} [DecidableEq κ] : List (κ × α) → κ → Option α
  | [], _ => none
  | (k, v) :: rest, key => if k = key then some v else lookupA rest key

/-- Dictionary assignment: replace the value at the key, or append. -/
def setA {κ α : Type} [DecidableEq κ] : List (κ × α) → κ → α → List (κ × α)
  | [], key, v => [(key, v)]
  | (k, w) :: rest, key, v =>
    if k = key then (k, v) :: rest else (k, w) :: setA rest key v

/-- Dictionary deletion: remove every pair at the key (exactly one when
keys are unique). -/
def eraseA {κ α : Type} [DecidableEq κ] : List (κ × α) → κ → List (κ × α)
  | [], _ => []
  | (k, v) :: rest, key =>
    if k = key then eraseA rest key else (k, v) :: eraseA rest key

/-! ## Dispatch layer (`trio_jsonrpc/dispatch.py`) -/

/-- A log severity; `logger.exception` logs at error severity. -/
inductive LogLevel where
  | info
  | error
  deriving Repr, DecidableEq

/-- One emitted log record. -/
structure LogEntry where
  level : LogLevel
  text : String
  deriving Repr, DecidableEq

/-- The shape-directed call built for a handler: `handler(*params)`,
`handler(**params)` or `handler()`. -/
inductive HandlerCall where
  | positional (args : List JsonValue)
  | named (kwargs : List (String × JsonValue))
  | noArgs
  deriving Repr

/-- The outcome of awaiting a handler coroutine: a normal return value, a
raised typed `JsonRpcException`, or any other raised `Exception`
(carrying an arbitrary detail string that must not reach the wire). -/
inductive HandlerOutcome where
  | ok (v : JsonValue)
  | jsonRpcExc (e : JsonRpcError)
  | otherExc (detail : String)
  deriving Repr

/-- A registered handler: `fn.__name__` plus the behaviour of awaiting
`fn` on a given call shape. -/
structure Handler where
  name : String
  run : HandlerCall → HandlerOutcome

/-- `Dispatch`: the handler registry (`self._handlers`). -/
structure Dispatch where
  handlers : List (String × Handler)

/-- `Dispatch.handler(fn)`: registers `fn` under `fn.__name__`; the last
registration for a name wins. -/
def Dispatch.handler (d : Dispatch) (fn : Handler) : Dispatch :=
  { d with handlers := setA d.handlers fn.name fn }

/-- `Dispatch._get_handler(method)`: the registered handler, or a raised
`JsonRpcMethodNotFoundError` when the method is not registered. -/
def Dispatch.get_handler (d : Dispatch) (method : String) :
    Except JsonRpcError Handler :=
  match lookupA d.handlers method with
  | some h => .ok h
  | none =>
    .error (jsonRpcMethodNotFoundError
      ("Method \"" ++ method ++ "\" not found."))

/-- The result object sent to the result channel: the handler's return
value or a typed exception object. -/
inductive DispatchResult where
  | value (v : JsonValue)
  | exc (e : JsonRpcError)
  deriving Repr

/-- The call shape `handle_request` builds from `request.params`: a list
becomes positional arguments, a dict becomes named arguments, anything
else (in particular absent params) yields a call with no arguments. -/
def buildCall (params : Option JsonValue) : HandlerCall :=
  match params with
  | some (.arr xs) => .positional xs
  | some (.obj kvs) => .named kvs
  | _ => .noArgs

/-- The log record emitted by `handle_request` when a handler raises an
unhandled exception. -/
def unhandledHandlerLog (handlerName : String) : LogEntry :=
  { level := .error,
    text := "An unhandled exception occurred in handler \""
      ++ handlerName ++ "\"" }

/-- The shared tail of `handle_request`: the `except` clauses that turn
the awaited handler's outcome into `result`, followed by the single
`await result_channel.send((request, result))`.  A typed
`JsonRpcException` becomes the result unmodified; any other exception is
logged with the handler's name and becomes an opaque
`JsonRpcInternalError`, its detail discarded. -/
def Dispatch.send_result (req : JsonRpcRequest) (handler_name : String)
    (outcome : HandlerOutcome) :
    List (JsonRpcRequest × DispatchResult) × List LogEntry :=
  match outcome with
  | .ok result => ([(req, .value result)], [])
  | .jsonRpcExc jre => ([(req, .exc jre)], [])
  | .otherExc _ =>
    ([(req, .exc (jsonRpcInternalError "An unhandled exception occurred."))],
      [unhandledHandlerLog handler_name])

/-- `Dispatch.handle_request(request, result_channel)`: looks up the
handler (a `JsonRpcMethodNotFoundError` raised by the lookup is caught by
the same `except JsonRpcException` clause and becomes the result), calls
the handler according to the shape of `params`, translates raised
exceptions, and sends exactly one `(request, result)` pair to the result
channel.  The first component is the list of pairs sent to
`result_channel`, the second the list of log records emitted. -/
def Dispatch.handle_request (d : Dispatch) (req : JsonRpcRequest) :
    List (JsonRpcRequest × DispatchResult) × List LogEntry :=
  match d.get_handler req.method with
  | .error jre => ([(req, .exc jre)], [])
  | .ok handler =>
    match req.params with
    | some (.arr xs) =>
      Dispatch.send_result req handler.name (handler.run (.positional xs))
    | some (.obj kvs) =>
      Dispatch.send_result req handler.name (handler.run (.named kvs))
    | _ => Dispatch.send_result req handler.name (handler.run .noArgs)

/-! ### Connection context (`Dispatch.ctx`, `Dispatch.connection_context`)

The context-variable machinery of `dispatch.py` is modelled as explicit
state: `connection_id` is the contextvar (`none` is the `ContextNotSet`
sentinel), `contexts` is the module-level `contexts` dict.  The context
value type is a parameter, matching the opaque context objects of the
source. -/

structure CtxState (α : Type) where
  connection_id : Option Nat
  contexts : List (Nat × α)

/-- `Dispatch.ctx`: the connection context for the current task.  Raises
`RuntimeError` when the contextvar still holds the `ContextNotSet`
sentinel; otherwise subscripts the `contexts` dict (a missing key is a
`KeyError`, which cannot occur under the scope invariant). -/
def Dispatch.ctx {α : Type} (st : CtxState α) : Except String α :=
  match st.connection_id with
  | none =>
    .error "The .context property is only valid in a connection context."
  | some id_ =>
    match lookupA st.contexts id_ with
    | some c => .ok c
    | none => .error "KeyError"

/-- Whether the body of a `with` block returned normally or raised. -/
inductive BodyOutcome where
  | ok
  | exc
  deriving Repr, DecidableEq

/-- `Dispatch.connection_context(context)`: raises `RuntimeError` when a
context is already set; otherwise draws `id_` from the generator, saves
the contextvar token, stores `context` in the `contexts` dict, runs the
body, and in a `finally` block resets the contextvar to the token and
deletes the dict entry.  `gen` is the next value of the module-level
`connection_id_gen` counter; the result carries the state after the scope
exits together with the body's outcome, which the `finally` clause does
not alter. -/
def Dispatch.connection_context {α : Type} (st : CtxState α) (gen : Nat)
    (context : α) (body : BodyOutcome) :
    Except String (CtxState α × BodyOutcome) :=
  match st.connection_id with
  | some _ => .error "The context has already been set."
  | none =>
    let id_ := gen
    let token : Option Nat := st.connection_id
    let entered : CtxState α :=
      { connection_id := some id_, contexts := setA st.contexts id_ context }
    let final : CtxState α :=
      { connection_id := token, contexts := eraseA entered.contexts id_ }
    .ok (final, body)

/-! ## Connection engine (`trio_jsonrpc/main.py`) -/

/-- `JsonRpcConnectionType`: client or server role, fixed at
construction. -/
inductive JsonRpcConnectionType where
  | CLIENT
  | SERVER
  deriving Repr, DecidableEq

/-- The observable state of a `JsonRpcConnection` together with its
transport.  The correlation table `outbound_requests` maps request ids to
waiter channel identifiers; `responses_delivered` records every
`(waiter, response)` pair the background task has sent to a waiting
`request()` call; `inbound_requests` records every request forwarded to
the inbound channel consumed by `iter_requests()`; `wire_sent` records
every request or notification handed to `transport.send`;
`errors_sent` records every error response handed to `transport.send`;
`send_closed` models `TransportClosed` on the send side. -/
structure ConnState where
  peer_type : JsonRpcConnectionType
  sansio_next_id : Nat
  outbound_requests : List (Nat × Nat)
  responses_delivered : List (Nat × JsonRpcResponse)
  inbound_requests : List JsonRpcRequest
  inbound_closed : Bool
  wire_sent : List JsonRpcRequest
  errors_sent : List JsonRpcError
  logs : List LogEntry
  bg_task_running : Bool
  send_closed : Bool
  inbound_capacity : Nat
  transport : Nat

/-- `JsonRpcConnection.__init__(transport, peer_type)`: empty correlation
table, background task not yet running, and an inbound request channel
opened with `trio.open_memory_channel(0)` — capacity zero always. -/
def JsonRpcConnection.init (transport : Nat)
    (peer_type : JsonRpcConnectionType) : ConnState :=
  { peer_type := peer_type
    sansio_next_id := 0
    outbound_requests := []
    responses_delivered := []
    inbound_requests := []
    inbound_closed := false
    wire_sent := []
    errors_sent := []
    logs := []
    bg_task_running := false
    send_closed := false
    inbound_capacity := 0
    transport := transport }

/-- A `trio.open_memory_channel(n)` pair, as created and then discarded by
`jsonrpc_server`. -/
structure MemoryChannel where
  capacity : Nat
  deriving Repr, DecidableEq

/-- `jsonrpc_client(transport, nursery)`: constructs a client-role
connection and starts its background task in the nursery. -/
def jsonrpc_client (transport : Nat) : ConnState :=
  JsonRpcConnection.init transport .CLIENT

/-- `jsonrpc_server(transport, nursery, request_buffer_len)`: opens a
memory-channel pair of capacity `request_buffer_len`, binds it to local
variables that are never used again, then constructs a server-role
connection and starts its background task. -/
def jsonrpc_server (transport : Nat) (request_buffer_len : Nat) : ConnState :=
  let _request_buffer : MemoryChannel × MemoryChannel :=
    ({ capacity := request_buffer_len }, { capacity := request_buffer_len })
  JsonRpcConnection.init transport .SERVER

/-- `JsonRpcConnection.notify(method, params)`: serializes a notification
(`sansio_peer.notify` builds a message with no id and does not draw a
request id) and hands the bytes to `transport.send`; the function then
returns — it touches neither the correlation table nor any response
channel. -/
def JsonRpcConnection.notify (st : ConnState) (method : String)
    (params : Option JsonValue) : ConnState :=
  let bytes_to_send : JsonRpcRequest :=
    { id := none, method := method, params := params }
  { st with wire_sent := st.wire_sent ++ [bytes_to_send] }

/-- The sending half of `JsonRpcConnection.request(method, params)`:
`sansio_peer.request` draws the next request id and serializes; a
one-time channel (`waiter`) is created, registered in
`self._outbound_requests[request_id]`, and the bytes are handed to
`transport.send`.  The caller then suspends on the waiter. -/
def JsonRpcConnection.request_send (st : ConnState) (method : String)
    (params : Option JsonValue) (waiter : Nat) : Nat × ConnState :=
  let request_id := st.sansio_next_id
  let bytes_to_send : JsonRpcRequest :=
    { id := some request_id, method := method, params := params }
  (request_id,
    { st with
      sansio_next_id := request_id + 1
      outbound_requests := setA st.outbound_requests request_id waiter
      wire_sent := st.wire_sent ++ [bytes_to_send] })

/-- The resuming half of `JsonRpcConnection.request`: once the background
task delivers `response` on the waiter, return `response.result` when
`response.success`, else raise
`JsonRpcException.exc_from_error(response.error)`. -/
def JsonRpcConnection.request_complete (response : JsonRpcResponse) :
    Except JsonRpcError JsonValue :=
  if response.success then .ok response.result
  else .error (exc_from_error response.error)

/-! ### The background receive loop (`JsonRpcConnection._background_task`)

One iteration of the `while` loop awaits `transport.recv()` and parses the
bytes.  The events a single iteration can observe are: a successful parse
into a list of messages, a `JsonRpcException` raised by `recv`/`parse`
(e.g. a parse error), `trio.Cancelled`, `TransportClosed` on the receive
side, or any other exception. -/

inductive RecvEvent where
  | msgs (ms : List Message)
  | rpcExc (jre : JsonRpcError)
  | cancelled
  | transportClosed
  | otherExc

/-- `JsonRpcConnection._background_send_error(exc)`: serialize an error
response (`respond_with_error(None, exc.get_error())`) and try to send
it; when the transport's send side is closed, swallow `TransportClosed`
and log instead, keeping the loop alive. -/
def JsonRpcConnection.background_send_error (st : ConnState)
    (exc : JsonRpcError) : ConnState :=
  if st.send_closed then
    { st with logs := st.logs ++
        [{ level := .error,
           text := "Server cannot send error response because the transport is closed." }] }
  else
    { st with errors_sent := st.errors_sent ++ [exc] }

/-- The log message for a response id with no in-flight request. -/
def unmatchedResponseMsg (id_ : Nat) : String :=
  "No in-flight request matches response.id=" ++ toString id_

/-- The per-message body of the background task's `for message in
messages` loop: a request is forwarded to the inbound channel; a response
is matched against `self._outbound_requests` — on a hit the entry is
popped and the response delivered to its waiter, on a `KeyError` the
condition is logged and a best-effort `JsonRpcInternalError` response is
attempted. -/
def JsonRpcConnection.process_message (st : ConnState) (m : Message) :
    ConnState :=
  match m with
  | .request r => { st with inbound_requests := st.inbound_requests ++ [r] }
  | .response resp =>
    match lookupA st.outbound_requests resp.id with
    | some response_send =>
      { st with
        outbound_requests := eraseA st.outbound_requests resp.id
        responses_delivered :=
          st.responses_delivered ++ [(response_send, resp)] }
    | none =>
      let msg := unmatchedResponseMsg resp.id
      JsonRpcConnection.background_send_error
        { st with logs := st.logs ++ [{ level := .error, text := msg }] }
        (jsonRpcInternalError msg)

/-- One iteration of the background task's `while` loop, given the event
the iteration observed. -/
def JsonRpcConnection.background_step (st : ConnState) (ev : RecvEvent) :
    ConnState :=
  match ev with
  | .msgs ms => ms.foldl JsonRpcConnection.process_message st
  | .rpcExc jre =>
    if st.peer_type = .CLIENT then
      { st with logs := st.logs ++
          [{ level := .error,
             text := "JSON-RPC exception in client background task." }] }
    else
      JsonRpcConnection.background_send_error
        { st with logs := st.logs ++
            [{ level := .error,
               text := "JSON-RPC exception in server background task." }] }
        jre
  | .cancelled => { st with bg_task_running := false }
  | .transportClosed =>
    { st with
      logs := st.logs ++
        [{ level := .info,
           text := "Background task is exiting because the receive transport is closed." }]
      inbound_closed := true
      bg_task_running := false }
  | .otherExc =>
    { st with logs := st.logs ++
        [{ level := .error,
           text := "Unhandled exception in JSON-RPC background task." }] }

/-- The background task's `while self._bg_task_running` loop over a finite
trace of events: once an iteration clears `bg_task_running` (a `break`
followed by the assignment after the loop), later events are no longer
processed. -/
def JsonRpcConnection.background_run (st : ConnState) :
    List RecvEvent → ConnState
  | [] => st
  | ev :: rest =>
    if st.bg_task_running then
      JsonRpcConnection.background_run
        (JsonRpcConnection.background_step st ev) rest
    else st

/-- `JsonRpcConnection._background_task()`: sets `_bg_task_running` and
runs the loop over the trace of observed events. -/
def JsonRpcConnection.background_task (st : ConnState)
    (evs : List RecvEvent) : ConnState :=
  JsonRpcConnection.background_run { st with bg_task_running := true } evs

/-! ### Concrete scenarios used by witnesses and counterexamples -/

/-- A client connection with exactly one outstanding `request()` call:
`request("hello_world")` has drawn correlation id 0 and registered waiter
channel 7. -/
def connOneOutstanding : ConnState :=
  (JsonRpcConnection.request_send (jsonrpc_client 0) "hello_world" none 7).2

/-- A response whose id 1 matches no in-flight request of
`connOneOutstanding`. -/
def unmatchedResponse : JsonRpcResponse :=
  { id := 1, body := .result (.str "hello!") }

/-- The params of the spec's echo round trip: `[1, 2, 3]`. -/
def echoParams : JsonValue := .arr [.num 1, .num 2, .num 3]

/-- A client connection with one outstanding `request("echo", [1,2,3])`
call: correlation id 0, waiter channel 7. -/
def connEcho : ConnState :=
  (JsonRpcConnection.request_send (jsonrpc_client 0) "echo"
    (some echoParams) 7).2

/-- The success response answering the echo request: id 0, result
`[1, 2, 3]`. -/
def respEcho : JsonRpcResponse := { id := 0, body := .result echoParams }

/-- A handler that raises an unrelated runtime error on every call. -/
def boomHandler : Handler :=
  { name := "boom", run := fun _ => .otherExc "ValueError" }

/-- A dispatcher with only `boomHandler` registered. -/
def dispatchBoom : Dispatch := { handlers := [("boom", boomHandler)] }

/-- A request for the `boom` method with absent params. -/
def reqBoom : JsonRpcRequest := { id := some 1, method := "boom", params := none }

/-- A handler that reflects its call shape back as its return value. -/
def echoHandler : Handler :=
  { name := "echo",
    run := fun c =>
      match c with
      | .positional xs => .ok (.arr xs)
      | .named kvs => .ok (.obj kvs)
      | .noArgs => .ok .null }

/-- A dispatcher with only `echoHandler` registered. -/
def dispatchEcho : Dispatch := { handlers := [("echo", echoHandler)] }

/-- A request for the `echo` method with positional params `[1, 2, 3]`. -/
def reqEcho : JsonRpcRequest :=
  { id := some 0, method := "echo", params := some echoParams }

/-! ## Helper lemmas -/

/-- Deleting a freshly assigned key restores the original dictionary. -/
theorem eraseA_setA_of_lookup_none {κ α : Type} [DecidableEq κ] :
    ∀ (l : List (κ × α)) (k : κ) (v : α),
      lookupA l k = none → eraseA (setA l k v) k = l := by
  intro l k v h
  induction l with
  | nil => simp [setA, eraseA]
  | cons p rest ih =>
    obtain ⟨k1, v1⟩ := p
    by_cases hk : k1 = k
    · simp [lookupA, hk] at h
    · simp only [lookupA, hk, if_false, if_neg hk] at h
      simp [setA, eraseA, hk, ih h]

/-- Once the loop flag is cleared, the background loop processes nothing
further. -/
theorem background_run_of_stopped :
    ∀ (st : ConnState) (evs : List RecvEvent),
      st.bg_task_running = false →
      JsonRpcConnection.background_run st evs = st := by
  intro st evs h
  cases evs with
  | nil => rfl
  | cons ev rest =>
    unfold JsonRpcConnection.background_run
    simp [h]

/-- `handle_request` invokes the looked-up handler on the call shape that
`buildCall` derives from the request's params. -/
theorem handle_request_via_buildCall :
    ∀ (d : Dispatch) (req : JsonRpcRequest) (h : Handler),
      lookupA d.handlers req.method = some h →
      Dispatch.handle_request d req =
        Dispatch.send_result req h.name (h.run (buildCall req.params)) := by
  intro d req h hs
  obtain ⟨mid, method, params⟩ := req
  have hget : d.get_handler method = .ok h := by
    simp [Dispatch.get_handler, hs]
  unfold Dispatch.handle_request
  rw [hget]
  cases params with
  | none => rfl
  | some j => cases j <;> rfl

/-- Each outcome leads `send_result` to send exactly one pair, carrying
the dispatched request. -/
theorem send_result_sends_one :
    ∀ (req : JsonRpcRequest) (nm : String) (outcome : HandlerOutcome),
      ∃ r, (Dispatch.send_result req nm outcome).1 = [(req, r)] := by
  intro req nm outcome
  cases outcome with
  | ok v => exact ⟨.value v, rfl⟩
  | jsonRpcExc e => exact ⟨.exc e, rfl⟩
  | otherExc s =>
    exact ⟨.exc (jsonRpcInternalError "An unhandled exception occurred."), rfl⟩

/-! ## Claims -/

/-- C3: for every `request()` call whose correlation id is answered by a
response, the receive loop pops the entry and delivers the response to
that call's waiter; the call then returns exactly the response's decoded
result value on a success response, and raises the typed error
reconstructed from the error object's code, message and optional data on
an error response. -/
theorem request_result_or_typed_error :
    ∀ (st : ConnState) (resp : JsonRpcResponse) (w : Nat),
      lookupA st.outbound_requests resp.id = some w →
      (JsonRpcConnection.process_message st (.response resp)).responses_delivered
          = st.responses_delivered ++ [(w, resp)]
      ∧ (JsonRpcConnection.process_message st (.response resp)).outbound_requests
          = eraseA st.outbound_requests resp.id
      ∧ (∀ v, resp.body = .result v →
          JsonRpcConnection.request_complete resp = .ok v)
      ∧ (∀ e, resp.body = .error e →
          JsonRpcConnection.request_complete resp =
            .error { code := e.code, message := e.message, data := e.data }) := by
  intro st resp w h
  refine ⟨?_, ?_, ?_, ?_⟩
  · simp [JsonRpcConnection.process_message, h]
  · simp [JsonRpcConnection.process_message, h]
  · intro v hv
    simp [JsonRpcConnection.request_complete, JsonRpcResponse.success,
      JsonRpcResponse.result, hv]
  · intro e he
    simp [JsonRpcConnection.request_complete, JsonRpcResponse.success,
      JsonRpcResponse.error, exc_from_error, he]

/-- C3 witness: the echo round trip — `request("echo", [1,2,3])` (waiter
7, correlation id 0) answered by a success response with result
`[1,2,3]` delivers the response to waiter 7 and returns `[1,2,3]`. -/
theorem request_result_or_typed_error_witness :
    (JsonRpcConnection.process_message connEcho
        (.response respEcho)).responses_delivered = [(7, respEcho)]
    ∧ JsonRpcConnection.request_complete respEcho =
        .ok (.arr [.num 1, .num 2, .num 3]) := by
  have h := request_result_or_typed_error connEcho respEcho 7 rfl
  exact ⟨h.1, h.2.2.1 echoParams rfl⟩

/-- C4: `handle_request` sends the handler's return value when the
handler completes; the exact typed exception, unmodified, when the
handler or the method lookup raises one (an unregistered method yields
`JsonRpcMethodNotFoundError`, code -32601); and an opaque internal error
(code -32603, detail discarded) with the handler's name logged at error
severity when the handler raises any other exception. -/
theorem handle_request_error_translation :
    ∀ (d : Dispatch) (req : JsonRpcRequest),
      (lookupA d.handlers req.method = none →
        Dispatch.handle_request d req =
          ([(req, .exc { code := -32601,
                         message := "Method \"" ++ req.method ++ "\" not found.",
                         data := none })], []))
      ∧ ∀ h, lookupA d.handlers req.method = some h →
          (∀ v, h.run (buildCall req.params) = .ok v →
            Dispatch.handle_request d req = ([(req, .value v)], []))
          ∧ (∀ e, h.run (buildCall req.params) = .jsonRpcExc e →
            Dispatch.handle_request d req = ([(req, .exc e)], []))
          ∧ (∀ s, h.run (buildCall req.params) = .otherExc s →
            Dispatch.handle_request d req =
              ([(req, .exc { code := -32603,
                             message := "An unhandled exception occurred.",
                             data := none })],
                [{ level := .error,
                   text := "An unhandled exception occurred in handler \""
                     ++ h.name ++ "\"" }])) := by
  intro d req
  constructor
  · intro hnone
    unfold Dispatch.handle_request
    simp [Dispatch.get_handler, hnone, jsonRpcMethodNotFoundError]
  · intro h hsome
    have hb := handle_request_via_buildCall d req h hsome
    refine ⟨?_, ?_, ?_⟩
    · intro v hv
      rw [hb, hv]
      rfl
    · intro e he
      rw [hb, he]
      rfl
    · intro s hs
      rw [hb, hs]
      rfl

/-- C4 witness: a handler raising a plain runtime error yields the opaque
internal error -32603 and a log record naming the handler. -/
theorem handle_request_error_translation_witness :
    Dispatch.handle_request dispatchBoom reqBoom =
      ([(reqBoom, .exc { code := -32603,
                           message := "An unhandled exception occurred.",
                           data := none })],
        [{ level := .error,
           text := "An unhandled exception occurred in handler \"boom\"" }]) := by
  have h := handle_request_error_translation dispatchBoom reqBoom
  exact (h.2 boomHandler rfl).2.2 "ValueError" rfl

/-- C5: every `handle_request` call sends exactly one `(request, result)`
pair to the result channel — never zero, never more — whatever the
outcome of lookup and handler. -/
theorem handle_request_sends_exactly_one :
    ∀ (d : Dispatch) (req : JsonRpcRequest),
      ((Dispatch.handle_request d req).1).length = 1
      ∧ ∃ r, (Dispatch.handle_request d req).1 = [(req, r)] := by
  intro d req
  have hone : ∃ r, (Dispatch.handle_request d req).1 = [(req, r)] := by
    cases hl : lookupA d.handlers req.method with
    | none =>
      refine ⟨.exc (jsonRpcMethodNotFoundError
        ("Method \"" ++ req.method ++ "\" not found.")), ?_⟩
      unfold Dispatch.handle_request
      simp [Dispatch.get_handler, hl]
    | some h =>
      rw [handle_request_via_buildCall d req h hl]
      exact send_result_sends_one req h.name (h.run (buildCall req.params))
  obtain ⟨r, hr⟩ := hone
  exact ⟨by rw [hr]; rfl, r, hr⟩

/-- C6: the handler invocation is built from the shape of params — a list
becomes positional arguments, a keyed mapping becomes named arguments,
absent params a call with no arguments — and `handle_request` invokes the
looked-up handler on exactly that call. -/
theorem handler_call_built_from_params_shape :
    ∀ (xs : List JsonValue) (kvs : List (String × JsonValue)),
      buildCall (some (.arr xs)) = .positional xs
      ∧ buildCall (some (.obj kvs)) = .named kvs
      ∧ buildCall none = .noArgs
      ∧ ∀ (d : Dispatch) (req : JsonRpcRequest) (h : Handler),
          lookupA d.handlers req.method = some h →
          Dispatch.handle_request d req =
            Dispatch.send_result req h.name (h.run (buildCall req.params)) := by
  intro xs kvs
  exact ⟨rfl, rfl, rfl, handle_request_via_buildCall⟩

/-- C6 witness: dispatching `echo` with positional params `[1,2,3]`
invokes the handler positionally, which here returns the arguments. -/
theorem handler_call_built_from_params_shape_witness :
    buildCall (some (.arr [.num 1])) = .positional [.num 1]
    ∧ Dispatch.handle_request dispatchEcho reqEcho =
        ([(reqEcho, .value (.arr [.num 1, .num 2, .num 3]))], []) := by
  have h := handler_call_built_from_params_shape [.num 1] []
  refine ⟨h.1, ?_⟩
  rw [h.2.2.2 dispatchEcho reqEcho echoHandler rfl]
  rfl

/-- C7: `notify(method, params)` leaves the correlation table unchanged,
hands a message with no id to the transport, delivers nothing to any
waiter, and does not draw a correlation id; its result depends on no
incoming response, so no response is awaited. -/
theorem notify_no_waiter_no_id :
    ∀ (st : ConnState) (method : String) (params : Option JsonValue),
      (JsonRpcConnection.notify st method params).outbound_requests
          = st.outbound_requests
      ∧ (JsonRpcConnection.notify st method params).wire_sent
          = st.wire_sent ++ [{ id := none, method := method, params := params }]
      ∧ (JsonRpcConnection.notify st method params).responses_delivered
          = st.responses_delivered
      ∧ (JsonRpcConnection.notify st method params).sansio_next_id
          = st.sansio_next_id :=
  fun _ _ _ => ⟨rfl, rfl, rfl, rfl⟩

/-- C8: reading `Dispatch.ctx` while the contextvar still holds the
`ContextNotSet` sentinel — that is, from a task inside no active
`connection_context` scope — always raises the "only valid in a
connection context" `RuntimeError`, whatever the shared contexts table
holds; no default value is ever returned. -/
theorem ctx_outside_scope_raises :
    ∀ (α : Type) (contexts : List (Nat × α)),
      Dispatch.ctx { connection_id := none, contexts := contexts } =
        Except.error
          "The .context property is only valid in a connection context." :=
  fun _ _ => rfl

/-- C9: `jsonrpc_server` discards the channel pair it opens with
`request_buffer_len`; the connection it returns is the plain server-role
construction, identical for every value of `request_buffer_len`, and its
inbound request channel always has capacity zero. -/
theorem request_buffer_len_no_effect :
    ∀ (t n m : Nat),
      jsonrpc_server t n = jsonrpc_server t m
      ∧ (jsonrpc_server t n).inbound_capacity = 0
      ∧ jsonrpc_server t n = JsonRpcConnection.init t .SERVER :=
  fun _ _ _ => ⟨rfl, rfl, rfl⟩

/-- C10: a `connection_context` scope entered from a task with no active
context always exits — whether the body returns or raises — with the
contextvar reset to its previous value and the scope's entry deleted
from the shared contexts table, so the state after the scope equals the
state before it and a subsequent `connection_context` call in the same
task succeeds. -/
theorem connection_context_restores :
    ∀ (α : Type) (st : CtxState α) (gen : Nat) (c : α) (body : BodyOutcome),
      st.connection_id = none →
      lookupA st.contexts gen = none →
      Dispatch.connection_context st gen c body =
        .ok ({ connection_id := none, contexts := st.contexts }, body)
      ∧ ∀ (gen2 : Nat) (c2 : α) (b2 : BodyOutcome), ∃ out,
          Dispatch.connection_context
            { connection_id := none, contexts := st.contexts } gen2 c2 b2 =
            .ok out := by
  intro α st gen c body h1 h2
  obtain ⟨cid, ctxs⟩ := st
  simp only at h1
  subst h1
  constructor
  · unfold Dispatch.connection_context
    simp only at h2 ⊢
    rw [eraseA_setA_of_lookup_none ctxs gen c h2]
  · intro gen2 c2 b2
    exact ⟨_, rfl⟩

/-- C10 witness: a scope whose body raises, entered with an unrelated
entry in the contexts table, exits with the table and contextvar exactly
restored. -/
theorem connection_context_restores_witness :
    Dispatch.connection_context
        (α := Nat) { connection_id := none, contexts := [(5, 99)] } 0 42 .exc =
      .ok ({ connection_id := none, contexts := [(5, 99)] }, .exc) :=
  (connection_context_restores Nat
    { connection_id := none, contexts := [(5, 99)] } 0 42 .exc rfl rfl).1

/-- C1 counterexample: a client with one outstanding `request()` call
(correlation id 0, waiter 7) whose transport receive side closes.  The
loop terminates and the inbound queue is closed, but the correlation
table still holds the pending entry and nothing was ever delivered to its
waiter — the entry is not failed out with a closed-connection error, so
the suspended `request()` caller is left blocked. -/
theorem transport_close_pending_not_failed :
    (JsonRpcConnection.background_task connOneOutstanding
        [.transportClosed]).outbound_requests = [(0, 7)]
    ∧ (JsonRpcConnection.background_task connOneOutstanding
        [.transportClosed]).responses_delivered = []
    ∧ (JsonRpcConnection.background_task connOneOutstanding
        [.transportClosed]).bg_task_running = false
    ∧ (JsonRpcConnection.background_task connOneOutstanding
        [.transportClosed]).inbound_closed = true :=
  ⟨rfl, rfl, rfl, rfl⟩

/-- C1 (amended): closing the transport's receive side makes the receive
loop log, close the inbound request channel — so `iter_requests()` ends
without error — and exit, ignoring any later events; but the correlation
table and the delivered-response log are left exactly as they were, so
pending `request()` entries are not failed out and their callers receive
nothing from the loop. -/
theorem transport_close_terminates_loop :
    ∀ (st : ConnState) (evs : List RecvEvent),
      st.bg_task_running = true →
      JsonRpcConnection.background_run st (.transportClosed :: evs) =
        { st with
          logs := st.logs ++
            [{ level := .info,
               text := "Background task is exiting because the receive transport is closed." }]
          inbound_closed := true
          bg_task_running := false } := by
  intro st evs h
  unfold JsonRpcConnection.background_run
  simp only [h, if_true]
  exact background_run_of_stopped _ evs rfl

/-- C1 witness: the amended statement at the one-outstanding-request
client with the loop running, with further events pending. -/
theorem transport_close_terminates_loop_witness :
    JsonRpcConnection.background_run
        { connOneOutstanding with bg_task_running := true }
        [.transportClosed, .msgs []] =
      { connOneOutstanding with
        logs := connOneOutstanding.logs ++
          [{ level := .info,
             text := "Background task is exiting because the receive transport is closed." }]
        inbound_closed := true
        bg_task_running := false } :=
  transport_close_terminates_loop
    { connOneOutstanding with bg_task_running := true } [.msgs []] rfl

/-- C2 counterexample: a client-role connection receiving a response
whose id matches no in-flight request.  The claim says a client logs only
and sends nothing, but the code attempts the best-effort internal-error
response unconditionally: the client hands an error response (code
-32603) to the transport. -/
theorem unmatched_response_client_sends :
    connOneOutstanding.peer_type = .CLIENT
    ∧ (JsonRpcConnection.background_task connOneOutstanding
        [.msgs [.response unmatchedResponse]]).errors_sent
      = [jsonRpcInternalError (unmatchedResponseMsg 1)]
    ∧ (JsonRpcConnection.background_task connOneOutstanding
        [.msgs [.response unmatchedResponse]]).bg_task_running = true :=
  ⟨rfl, rfl, rfl⟩

/-- C2 (amended): for every received response whose id has no pending
waiter, the receive loop logs the unmatched-response condition and
continues (the loop flag, the inbound queue and the correlation table are
untouched), and it attempts a best-effort internal-error response
regardless of the connection's role: the error (code -32603) is handed to
the transport when the send side is open, and only a further log record
is emitted when the send side is closed. -/
theorem unmatched_response_nonfatal_any_role :
    ∀ (st : ConnState) (resp : JsonRpcResponse),
      lookupA st.outbound_requests resp.id = none →
      (JsonRpcConnection.process_message st (.response resp)).bg_task_running
          = st.bg_task_running
      ∧ (JsonRpcConnection.process_message st (.response resp)).inbound_closed
          = st.inbound_closed
      ∧ (JsonRpcConnection.process_message st (.response resp)).outbound_requests
          = st.outbound_requests
      ∧ (JsonRpcConnection.process_message st (.response resp)).peer_type
          = st.peer_type
      ∧ (st.send_closed = false →
          (JsonRpcConnection.process_message st (.response resp)).errors_sent
            = st.errors_sent
              ++ [jsonRpcInternalError (unmatchedResponseMsg resp.id)]
          ∧ (JsonRpcConnection.process_message st (.response resp)).logs
            = st.logs
              ++ [{ level := .error, text := unmatchedResponseMsg resp.id }])
      ∧ (st.send_closed = true →
          (JsonRpcConnection.process_message st (.response resp)).errors_sent
            = st.errors_sent
          ∧ (JsonRpcConnection.process_message st (.response resp)).logs
            = st.logs
              ++ [{ level := .error, text := unmatchedResponseMsg resp.id },
                { level := .error,
                  text := "Server cannot send error response because the transport is closed." }]) := by
  intro st resp h
  refine ⟨?_, ?_, ?_, ?_, ?_, ?_⟩
  · simp [JsonRpcConnection.process_message, h,
      JsonRpcConnection.background_send_error, unmatchedResponseMsg]
    by_cases hsc : st.send_closed <;> simp [hsc]
  · simp [JsonRpcConnection.process_message, h,
      JsonRpcConnection.background_send_error, unmatchedResponseMsg]
    by_cases hsc : st.send_closed <;> simp [hsc]
  · simp [JsonRpcConnection.process_message, h,
      JsonRpcConnection.background_send_error, unmatchedResponseMsg]
    by_cases hsc : st.send_closed <;> simp [hsc]
  · simp [JsonRpcConnection.process_message, h,
      JsonRpcConnection.background_send_error, unmatchedResponseMsg]
    by_cases hsc : st.send_closed <;> simp [hsc]
  · intro hsc
    constructor <;>
      simp [JsonRpcConnection.process_message, h,
        JsonRpcConnection.background_send_error, unmatchedResponseMsg, hsc]
  · intro hsc
    constructor <;>
      simp [JsonRpcConnection.process_message, h,
        JsonRpcConnection.background_send_error, unmatchedResponseMsg, hsc]

/-- C2 witness: the amended statement at the client connection with one
outstanding request, receiving the unmatched response id 1 on an open
send side. -/
theorem unmatched_response_nonfatal_any_role_witness :
    (JsonRpcConnection.process_message connOneOutstanding
        (.response unmatchedResponse)).bg_task_running
      = connOneOutstanding.bg_task_running
    ∧ (JsonRpcConnection.process_message connOneOutstanding
        (.response unmatchedResponse)).errors_sent
      = connOneOutstanding.errors_sent
        ++ [jsonRpcInternalError (unmatchedResponseMsg 1)] := by
  have h := unmatched_response_nonfatal_any_role connOneOutstanding
    unmatchedResponse rfl
  exact ⟨h.1, (h.2.2.2.2.1 rfl).1⟩
